import Mathlib

/-!
Shallow embedding of the `purge` library core (CDN-agnostic cache purging and
cache-header synthesis) and proofs about it.

The embedding covers:
* the error taxonomy of `packages/core/errors.ts` (tagged error classes and the
  closed union `PurgeError`);
* the purge client of the core module (`createPurge`, `defaultConfig`,
  `buildCommonHeaders`), with JavaScript truthiness and object-spread
  semantics made explicit;
* the ambient tag-collection context module (`cacheTags`,
  `createPurgeContext`, `getCurrentPurgeContext`), modelled as explicit
  context passing with an effect trace.

JavaScript `number` values are modelled as `Int` (the library works with
integral second counts), `undefined` as `Option.none`, and a JS object field
that may be absent, explicitly `undefined`, or set, as `Option (Option _)`
(outer layer: key present; inner layer: value defined).
-/

namespace Purge

/-- A value of the `vary` option: `string | string[]` in the source. -/
inductive VaryVal where
  | str (s : String)
  | arr (l : List String)
deriving DecidableEq

/-- The argument record of `buildCommonHeaders` (`Omit<GetCacheHeadersParams,
"tags">`): every field is optional, `none` modelling JS `undefined`.  The
field `priv` is named `private` in the source (a Lean keyword). -/
structure HeaderParams where
  maxAgeCDN : Option Int
  maxAgeBrowser : Option Int
  vary : Option VaryVal
  priv : Option Bool
deriving DecidableEq

/-- JS truthiness of an optional number: `undefined` and `0` are falsy, every
other integer (negative ones included) is truthy. -/
def jsTruthyNum : Option Int → Bool
  | none => false
  | some v => v != 0

/-- JS truthiness of an optional boolean: only `true` is truthy. -/
def jsTruthyBool : Option Bool → Bool
  | none => false
  | some v => v

/-- JS truthiness of the `vary` value: `undefined` and the empty string are
falsy; every array (the empty array included) is truthy. -/
def jsTruthyVary : Option VaryVal → Bool
  | none => false
  | some (.str s) => s != ""
  | some (.arr _) => true

/-- The JS expression `n || 0` for an optional number `n`. -/
def jsOrZero (n : Option Int) : Int :=
  match n with
  | none => 0
  | some v => if v != 0 then v else 0

/-- The ordered list of `Cache-Control` directives built by
`buildCommonHeaders` before `.filter(Boolean).join(", ")`; the two `if`s
model the filtering of the falsy short-circuit results:
`(params.maxAgeCDN && !params.private) && "s-maxage=..."` and
`params.maxAgeBrowser && "max-age=..."`. -/
def cacheControlParts (p : HeaderParams) : List String :=
  (if jsTruthyNum p.maxAgeCDN && !jsTruthyBool p.priv then
    ["s-maxage=" ++ toString (jsOrZero p.maxAgeCDN)]
   else []) ++
  (if jsTruthyNum p.maxAgeBrowser then
    ["max-age=" ++ toString (jsOrZero p.maxAgeBrowser)]
   else []) ++
  ["must-revalidate", if jsTruthyBool p.priv then "private" else "public"]

/-- The `Cache-Control` header value: the directive list joined with `", "`. -/
def cacheControlValue (p : HeaderParams) : String :=
  String.intercalate ", " (cacheControlParts p)

/-- `Array.isArray(vary) ? vary : [vary]` followed by `.join(", ")`. -/
def varyJoin : Option VaryVal → String
  | some (.arr l) => String.intercalate ", " l
  | some (.str s) => s
  | none => ""

/-- `buildCommonHeaders` from the core module: a record (association list
with distinct keys) holding `Cache-Control` always and `Vary` exactly when
`params.vary` is truthy. -/
def buildCommonHeaders (p : HeaderParams) : List (String × String) :=
  ("Cache-Control", cacheControlValue p) ::
    (if jsTruthyVary p.vary then [("Vary", varyJoin p.vary)] else [])

/-- Key lookup in a header record. -/
def lookupHeader (hs : List (String × String)) (k : String) : Option String :=
  match hs.find? (fun kv => kv.1 == k) with
  | some kv => some kv.2
  | none => none

/-- A partially specified directives object (used for the client-level config
and for per-call overrides).  Each field is `Option (Option _)`: `none` means
the key is absent, `some none` means the key is present with value
`undefined`, `some (some v)` means the key holds `v`.  This mirrors JS
object-spread semantics, where a present-but-`undefined` key still overrides. -/
structure Directives where
  maxAgeCDN : Option (Option Int) := none
  maxAgeBrowser : Option (Option Int) := none
  vary : Option (Option VaryVal) := none
  priv : Option (Option Bool) := none
deriving DecidableEq

/-- Per-key semantics of the object spread `{...x, ...y}`: `y`'s entry wins
whenever the key is present in `y` (even with value `undefined`). -/
def spreadField {γ : Type} (x y : Option (Option γ)) : Option (Option γ) :=
  match y with
  | some v => some v
  | none => x

/-- Field-wise object spread `{...x, ...y}` of two directive objects. -/
def spreadDirectives (x y : Directives) : Directives where
  maxAgeCDN := spreadField x.maxAgeCDN y.maxAgeCDN
  maxAgeBrowser := spreadField x.maxAgeBrowser y.maxAgeBrowser
  vary := spreadField x.vary y.vary
  priv := spreadField x.priv y.priv

/-- `defaultConfig` from the core module: all four keys present. -/
def defaultConfig : Directives where
  maxAgeCDN := some (some 3153536000)
  maxAgeBrowser := some (some 0)
  vary := some (some (VaryVal.str "Accept-Encoding"))
  priv := some (some false)

/-- Reading a possibly absent key of a JS object yields `undefined` both when
the key is absent and when it holds `undefined`: `Option.join`. -/
def toHeaderParams (d : Directives) : HeaderParams where
  maxAgeCDN := d.maxAgeCDN.join
  maxAgeBrowser := d.maxAgeBrowser.join
  vary := d.vary.join
  priv := d.priv.join

/-- The directive resolution performed inside `createPurge`'s
`getCacheHeaders`: `{...defaultConfig, ...config, ...params}`. -/
def resolveDirectives (config params : Directives) : HeaderParams :=
  toHeaderParams (spreadDirectives (spreadDirectives defaultConfig config) params)

/-- `BaseErrorArgs` from `packages/core/errors.ts`.  An underlying `Error`
cause is modelled by its message; `none` covers both `null` and `undefined`
(the constructor only stores a truthy cause). -/
structure BaseErrorArgs where
  message : Option String := none
  cause : Option String := none
deriving DecidableEq

/-- The closed union `PurgeError = PurgeProviderError | PurgeArgumentError`
from `packages/core/errors.ts` (two constructors, in source order). -/
inductive PurgeError where
  | purgeProviderError (args : BaseErrorArgs)
  | purgeArgumentError (args : BaseErrorArgs)
deriving DecidableEq

/-- The `_tag` discriminator each error class sets in its constructor. -/
def PurgeError.tag : PurgeError → String
  | .purgeProviderError _ => "PurgeProviderError"
  | .purgeArgumentError _ => "PurgeArgumentError"

/-- The stored `cause` of a purge error. -/
def PurgeError.cause : PurgeError → Option String
  | .purgeProviderError a => a.cause
  | .purgeArgumentError a => a.cause

/-- The variant tags of the union type `PurgeError` as declared in
`packages/core/errors.ts` (source order). -/
def purgeErrorVariantTags : List String :=
  ["PurgeProviderError", "PurgeArgumentError"]

/-- A value thrown by the context module: either a plain untagged
`new Error(message)` or one of the tagged purge errors. -/
inductive ThrownError where
  | plainError (message : String)
  | purgeThrown (e : PurgeError)
deriving DecidableEq

/-- Whether a thrown value carries the `PurgeArgumentError` kind tag. -/
def ThrownError.hasArgumentTag : ThrownError → Bool
  | .plainError _ => false
  | .purgeThrown e => e.tag == "PurgeArgumentError"

/-- `PurgeCacheParams` from the core module. -/
structure PurgeCacheParams where
  tags : List String
deriving DecidableEq

/-- Whether a purge result is a failure carrying the `PurgeArgumentError`
kind tag. -/
def resultIsArgumentError : Except PurgeError Unit → Bool
  | .error e => e.tag == "PurgeArgumentError"
  | .ok _ => false

/-- The `PurgeProvider` capability: an async purge (its settled outcome
modelled as `Except`) and a synchronous provider-header computation. -/
structure Provider where
  purgeCache : PurgeCacheParams → Except PurgeError Unit
  getCacheHeaders : List String → List (String × String)

/-- `PurgeClientConfig`: a bound provider plus the client-level directive
fields (in the source they sit in one object; `buildCommonHeaders` only reads
the directive fields, so the `provider` key of the spread is irrelevant). -/
structure PurgeClientConfig where
  provider : Provider
  directives : Directives

/-- The `purgeCache` operation of the client built by `createPurge`: a direct
delegation `config.provider.purgeCache(params)` with no validation. -/
def clientPurgeCache (config : PurgeClientConfig) (params : PurgeCacheParams) :
    Except PurgeError Unit :=
  config.provider.purgeCache params

/-- The record spread `{...a, ...b}` for header records: keys of `a` (values
overridden by `b` on collision) followed by the keys only `b` has. -/
def recordSpread (a b : List (String × String)) : List (String × String) :=
  a.map (fun kv =>
    (kv.1, match lookupHeader b kv.1 with
           | some v => v
           | none => kv.2)) ++
  b.filter (fun kv => (lookupHeader a kv.1).isNone)

/-- The `getCacheHeaders` operation of the client built by `createPurge`:
provider headers spread over the common headers built from
`{...defaultConfig, ...config, ...params}`. -/
def clientGetCacheHeaders (config : PurgeClientConfig) (tags : List String)
    (params : Directives) : List (String × String) :=
  recordSpread
    (buildCommonHeaders (resolveDirectives config.directives params))
    (config.provider.getCacheHeaders tags)

/-- The mutable `Set<string>` of a tag-collection scope, modelled as its
elements in insertion order without duplicates. -/
abbrev TagStore := List String

/-- `new Set<string>()`. -/
def emptyTagStore : TagStore := []

/-- `Set.prototype.add`: appends unless already present. -/
def setAdd (s : TagStore) (t : String) : TagStore :=
  if t ∈ s then s else s ++ [t]

/-- The ambient binding of the `AsyncLocalStorage` instance `purgeContext`:
either no store is bound or one tag store is. -/
abbrev Ctx := Option TagStore

/-- A log of externally observable effects, used to count invocations. -/
abbrev Trace := List String

/-- A unit of work running under the ambient context: it receives the current
binding and the effect trace and returns its value, the updated binding and
the extended trace. -/
abbrev Comp (α : Type) := Ctx → Trace → α × Ctx × Trace

/-- `cacheTags(...tags)` from the context module: a silent no-op without an
active scope, otherwise adds each tag to the bound store. -/
def cacheTags (tags : List String) : Comp Unit := fun ctx tr =>
  match ctx with
  | none => ((), none, tr)
  | some store => ((), some (tags.foldl setAdd store), tr)

/-- `createPurgeContext(callback)` from the context module: creates one fresh
empty store, runs the callback with it bound (`purgeContext.run`), restores
the outer binding afterwards, and returns the callback's value (the TS
signature says `void`, but the implementation returns `purgeContext.run`'s
result, i.e. the callback's result — the Astro middleware relies on it). -/
def createPurgeContext {α : Type} (callback : Comp α) : Comp α := fun outer tr =>
  let store := emptyTagStore
  let r := callback (some store) tr
  (r.1, outer, r.2.2)

/-- `getCurrentPurgeContext()` from the context module: reads the bound store
synchronously; without an active scope it throws a plain untagged
`new Error(...)`. -/
def getCurrentPurgeContext (ctx : Ctx) : Except ThrownError TagStore :=
  match ctx with
  | none => Except.error (ThrownError.plainError
      "No purge context found. Ensure you are running within a purge context.")
  | some store => Except.ok store

/-- A probe callback: reports the binding it observes as its value and logs
one marker on the effect trace per invocation. -/
def probeComp : Comp Ctx := fun ctx tr => (ctx, ctx, tr ++ ["probe-invoked"])

/-- A provider double whose purge always succeeds. -/
def okProvider : Provider where
  purgeCache := fun _ => Except.ok ()
  getCacheHeaders := fun _ => []

/-- A provider double whose purge reports the tag list it was invoked with
inside a provider-tagged error, making the invocation observable. -/
def trackProvider : Provider where
  purgeCache := fun params => Except.error (PurgeError.purgeProviderError
    { message := some ("provider invoked with " ++ String.intercalate ", " params.tags)
      cause := none })
  getCacheHeaders := fun _ => []

/-- Whether the result of reading the context is a failure carrying the
`PurgeArgumentError` kind tag. -/
def readResultHasArgumentTag : Except ThrownError TagStore → Bool
  | .error e => e.hasArgumentTag
  | .ok _ => false

/-- Whether the result of reading the context succeeded. -/
def readResultIsOk : Except ThrownError TagStore → Bool
  | .error _ => false
  | .ok _ => true

/-- A client-level config fixture: sets `maxAgeBrowser` and a `vary` list. -/
def cfgFixture : Directives :=
  { maxAgeBrowser := some (some 7), vary := some (some (VaryVal.arr ["B"])) }

/-- A per-call override fixture: sets `maxAgeCDN` and a different `vary`
list. -/
def perFixture : Directives :=
  { maxAgeCDN := some (some 5), vary := some (some (VaryVal.arr ["A"])) }

/-- A string of the form `"s-maxage=" ++ rest` differs from any string whose
first character is not `s`. -/
theorem smaxage_ne_of_head (rest t : String) (h : t.data.head? ≠ some 's') :
    "s-maxage=" ++ rest ≠ t := by
  intro he
  apply h
  rw [← he]
  rfl

/-- A string with a nonempty literal appended on the right is nonempty. -/
theorem append_lit_ne_empty (a lit : String) (h : lit.data ≠ []) :
    a ++ lit ≠ "" := by
  intro he
  apply h
  have hd : a.data ++ lit.data = ("" : String).data := congrArg String.data he
  exact (List.append_eq_nil.mp hd).2

/-- C1 (amended): `purgeCache` performs no validation of the tag list — a
call with an empty tag list is delegated unchanged to the bound provider
(whose result is returned as is), so for a provider that never produces an
argument-tagged error the call does not fail with `PurgeArgumentError`. -/
theorem purgeCache_empty_tags_delegates (cfg : PurgeClientConfig)
    (h : ∀ ps, resultIsArgumentError (cfg.provider.purgeCache ps) = false) :
    clientPurgeCache cfg ⟨[]⟩ = cfg.provider.purgeCache ⟨[]⟩ ∧
    resultIsArgumentError (clientPurgeCache cfg ⟨[]⟩) = false :=
  ⟨rfl, h ⟨[]⟩⟩

/-- C1 witness: the delegation theorem applied to the always-succeeding
provider double. -/
theorem purgeCache_empty_tags_delegates_witness :
    clientPurgeCache ⟨okProvider, {}⟩ ⟨[]⟩ = okProvider.purgeCache ⟨[]⟩ ∧
    resultIsArgumentError (clientPurgeCache ⟨okProvider, {}⟩ ⟨[]⟩) = false :=
  purgeCache_empty_tags_delegates ⟨okProvider, {}⟩ (fun _ => rfl)

/-- C1 counterexample: with an empty tag list the client does not fail with
`PurgeArgumentError` — with a succeeding provider the call succeeds, and the
tracking provider's tagged result coming back shows the provider was
invoked. -/
theorem purgeCache_empty_tags_not_rejected :
    clientPurgeCache ⟨okProvider, {}⟩ ⟨[]⟩ = Except.ok () ∧
    resultIsArgumentError (clientPurgeCache ⟨okProvider, {}⟩ ⟨[]⟩) = false ∧
    clientPurgeCache ⟨trackProvider, {}⟩ ⟨[]⟩ =
      Except.error (PurgeError.purgeProviderError
        { message := some "provider invoked with ", cause := none }) := by
  refine ⟨rfl, rfl, ?_⟩
  rfl

/-- C3 (amended): a negative age is not clamped to zero — it is truthy in JS,
so its directive is emitted with the negative value verbatim (header
synthesis is total, so no error is raised either way). -/
theorem negative_age_emitted_verbatim (n : Int) (h : n < 0) :
    ("s-maxage=" ++ toString n) ∈ cacheControlParts ⟨some n, some 0, none, none⟩ ∧
    ("max-age=" ++ toString n) ∈ cacheControlParts ⟨some 0, some n, none, none⟩ := by
  have hne : (n != 0) = true := by
    simp [bne]
    omega
  constructor
  · simp [cacheControlParts, jsTruthyNum, jsTruthyBool, jsOrZero, hne]
  · simp [cacheControlParts, jsTruthyNum, jsTruthyBool, jsOrZero, hne]

/-- C3 witness: the verbatim-emission theorem applied at `-5`. -/
theorem negative_age_emitted_verbatim_witness :
    ("s-maxage=" ++ toString (-5 : Int)) ∈
      cacheControlParts ⟨some (-5), some 0, none, none⟩ ∧
    ("max-age=" ++ toString (-5 : Int)) ∈
      cacheControlParts ⟨some 0, some (-5), none, none⟩ :=
  negative_age_emitted_verbatim (-5) (by decide)

/-- C3 counterexample: for `maxAgeCDN = -5` the produced `Cache-Control`
value contains the negative directive `s-maxage=-5`, so negative ages are
not treated as zero. -/
theorem negative_age_counterexample :
    cacheControlValue ⟨some (-5), some 0, none, none⟩ =
      "s-maxage=-5, must-revalidate, public" ∧
    cacheControlParts ⟨some (-5), some 0, none, none⟩ =
      ["s-maxage=-5", "must-revalidate", "public"] :=
  ⟨by decide, by decide⟩

/-- C4 (amended): if `vary` is absent or the empty string, the output has no
`Vary` key; a list input — the empty list included — always yields a `Vary`
key holding the names joined with `", "` in caller order (so the empty list
yields `Vary: ""` rather than omitting the key); a nonempty single string is
treated as a one-element list. -/
theorem vary_header_handling (p : HeaderParams) :
    (p.vary = none → lookupHeader (buildCommonHeaders p) "Vary" = none) ∧
    (p.vary = some (VaryVal.str "") →
      lookupHeader (buildCommonHeaders p) "Vary" = none) ∧
    (∀ l, p.vary = some (VaryVal.arr l) →
      lookupHeader (buildCommonHeaders p) "Vary" = some (String.intercalate ", " l)) ∧
    (∀ s, s ≠ "" → p.vary = some (VaryVal.str s) →
      lookupHeader (buildCommonHeaders p) "Vary" = some s) := by
  refine ⟨?_, ?_, ?_, ?_⟩
  · intro h
    simp only [buildCommonHeaders, h]
    rfl
  · intro h
    simp only [buildCommonHeaders, h]
    rfl
  · intro l h
    simp only [buildCommonHeaders, h]
    rfl
  · intro s hs h
    have hb : (s != "") = true := by simp [bne, hs]
    simp only [buildCommonHeaders, h, jsTruthyVary, hb, if_true]
    rfl

/-- C4 witness: the handling theorem applied to `vary = ["A", "B"]`. -/
theorem vary_header_handling_witness :
    lookupHeader (buildCommonHeaders ⟨none, none, some (VaryVal.arr ["A", "B"]), none⟩)
      "Vary" = some "A, B" :=
  (vary_header_handling ⟨none, none, some (VaryVal.arr ["A", "B"]), none⟩).2.2.1
    ["A", "B"] rfl

/-- C4 counterexample: an explicitly empty `vary` list does not omit the
header — the output mapping has a `Vary` key with the empty value. -/
theorem vary_empty_list_key_present :
    lookupHeader (buildCommonHeaders ⟨none, none, some (VaryVal.arr []), none⟩)
      "Vary" = some "" := by
  decide

/-- C5 (amended): reading the accumulated tag set outside any active scope
fails, but with a plain untagged `Error` (message `"No purge context
found."` …), not with a value carrying the `ArgumentError` kind tag. -/
theorem read_context_outside_scope_plain_error :
    getCurrentPurgeContext none = Except.error (ThrownError.plainError
      "No purge context found. Ensure you are running within a purge context.") :=
  rfl

/-- C5 counterexample: the read outside a scope does fail, yet the thrown
value does not carry the `PurgeArgumentError` kind tag. -/
theorem read_context_outside_scope_not_tagged :
    readResultIsOk (getCurrentPurgeContext none) = false ∧
    readResultHasArgumentTag (getCurrentPurgeContext none) = false :=
  ⟨rfl, rfl⟩

/-- C6 (amended): the core's error type is a closed union of exactly two
tagged variants — a provider error and an argument error — and each variant
carries an optional underlying cause (there is no decode variant in the
union). -/
theorem purge_error_closed_union_two_variants :
    (∀ e : PurgeError, e.tag ∈ purgeErrorVariantTags) ∧
    (∀ e : PurgeError,
      e.tag = "PurgeProviderError" ∨ e.tag = "PurgeArgumentError") ∧
    (∀ args : BaseErrorArgs,
      (PurgeError.purgeProviderError args).cause = args.cause ∧
      (PurgeError.purgeArgumentError args).cause = args.cause) := by
  refine ⟨?_, ?_, ?_⟩
  · intro e
    cases e <;> simp [PurgeError.tag, purgeErrorVariantTags]
  · intro e
    cases e
    · exact Or.inl rfl
    · exact Or.inr rfl
  · intro args
    exact ⟨rfl, rfl⟩

/-- C6 counterexample: the union declared in `packages/core/errors.ts` has
two variants, not three, and none of them is a decode error. -/
theorem purge_error_no_decode_variant :
    purgeErrorVariantTags.length = 2 ∧
    "PurgeDecodeError" ∉ purgeErrorVariantTags :=
  ⟨rfl, by decide⟩

/-- C7: when `private` is `true`, the `Cache-Control` value (the `", "`-join
of the directive list) contains no `s-maxage` directive, whatever
`maxAgeCDN` is. -/
theorem private_true_no_smaxage (p : HeaderParams) (h : p.priv = some true) :
    cacheControlValue p = String.intercalate ", " (cacheControlParts p) ∧
    ∀ rest : String, ("s-maxage=" ++ rest) ∉ cacheControlParts p := by
  refine ⟨rfl, ?_⟩
  intro rest hmem
  have hpriv : jsTruthyBool p.priv = true := by rw [h]; rfl
  rw [cacheControlParts, hpriv] at hmem
  cases hB : jsTruthyNum p.maxAgeBrowser <;> simp [hB] at hmem
  · rcases hmem with h1 | h1
    · exact smaxage_ne_of_head rest _ (by decide) h1
    · exact smaxage_ne_of_head rest _ (by decide) h1
  · rcases hmem with h1 | h1 | h1
    · refine smaxage_ne_of_head rest _ ?_ h1
      have hm : ("max-age=" ++ toString (jsOrZero p.maxAgeBrowser)).data.head? =
          some 'm' := rfl
      rw [hm]
      decide
    · exact smaxage_ne_of_head rest _ (by decide) h1
    · exact smaxage_ne_of_head rest _ (by decide) h1

/-- C7 witness: the theorem applied to a private directive set with a large
`maxAgeCDN`. -/
theorem private_true_no_smaxage_witness :
    ("s-maxage=" ++ "86400") ∉
      cacheControlParts ⟨some 86400, some 3600, none, some true⟩ :=
  (private_true_no_smaxage ⟨some 86400, some 3600, none, some true⟩ rfl).2 "86400"

/-- C8: for every directives input the `Cache-Control` directive list
contains `must-revalidate`; its last directive is exactly one of the
literals `private` (when `private` is truthy) or `public` (otherwise), so
the joined value ends in that literal and is never empty; and with both max
ages zero the value is exactly `"must-revalidate, public"`. -/
theorem cache_control_shape (p : HeaderParams) :
    "must-revalidate" ∈ cacheControlParts p ∧
    (cacheControlParts p).getLast? =
      some (if jsTruthyBool p.priv then "private" else "public") ∧
    (∃ a, cacheControlValue p =
      a ++ (if jsTruthyBool p.priv then "private" else "public")) ∧
    cacheControlValue p ≠ "" ∧
    cacheControlValue ⟨some 0, some 0, p.vary, none⟩ = "must-revalidate, public" := by
  have hsuffix : ∃ a, cacheControlValue p =
      a ++ (if jsTruthyBool p.priv then "private" else "public") := by
    cases hP : jsTruthyBool p.priv <;> cases hA : jsTruthyNum p.maxAgeCDN <;>
      cases hB : jsTruthyNum p.maxAgeBrowser <;>
      simp [cacheControlValue, cacheControlParts, hP, hA, hB] <;>
      exact ⟨_, rfl⟩
  refine ⟨?_, ?_, hsuffix, ?_, rfl⟩
  · simp [cacheControlParts]
  · rw [cacheControlParts,
      show (["must-revalidate",
        if jsTruthyBool p.priv then "private" else "public"] : List String) =
        ["must-revalidate"] ++
          [if jsTruthyBool p.priv then "private" else "public"] from rfl,
      ← List.append_assoc]
    exact List.getLast?_concat _
  · obtain ⟨a, ha⟩ := hsuffix
    rw [ha]
    refine append_lit_ne_empty _ _ ?_
    cases hP : jsTruthyBool p.priv <;> simp [hP]

/-- C9: each directive field is resolved independently — the per-call value
wins when the per-call override provides the key (explicit `undefined`
included), else the client config value when it provides the key, else the
library default (`maxAgeCDN = 3153536000`, `maxAgeBrowser = 0`,
`vary = "Accept-Encoding"`, `private = false`); and a per-call `vary` list
replaces a config `vary` list outright, never concatenating. -/
theorem merge_precedence_per_field (cfg per : Directives) :
    (∀ v, per.maxAgeCDN = some v → (resolveDirectives cfg per).maxAgeCDN = v) ∧
    (∀ v, per.maxAgeCDN = none → cfg.maxAgeCDN = some v →
      (resolveDirectives cfg per).maxAgeCDN = v) ∧
    (per.maxAgeCDN = none → cfg.maxAgeCDN = none →
      (resolveDirectives cfg per).maxAgeCDN = some 3153536000) ∧
    (∀ v, per.maxAgeBrowser = some v →
      (resolveDirectives cfg per).maxAgeBrowser = v) ∧
    (∀ v, per.maxAgeBrowser = none → cfg.maxAgeBrowser = some v →
      (resolveDirectives cfg per).maxAgeBrowser = v) ∧
    (per.maxAgeBrowser = none → cfg.maxAgeBrowser = none →
      (resolveDirectives cfg per).maxAgeBrowser = some 0) ∧
    (∀ v, per.vary = some v → (resolveDirectives cfg per).vary = v) ∧
    (∀ v, per.vary = none → cfg.vary = some v →
      (resolveDirectives cfg per).vary = v) ∧
    (per.vary = none → cfg.vary = none →
      (resolveDirectives cfg per).vary = some (VaryVal.str "Accept-Encoding")) ∧
    (∀ v, per.priv = some v → (resolveDirectives cfg per).priv = v) ∧
    (∀ v, per.priv = none → cfg.priv = some v →
      (resolveDirectives cfg per).priv = v) ∧
    (per.priv = none → cfg.priv = none →
      (resolveDirectives cfg per).priv = some false) ∧
    (∀ l lc, per.vary = some (some (VaryVal.arr l)) →
      cfg.vary = some (some (VaryVal.arr lc)) →
      (resolveDirectives cfg per).vary = some (VaryVal.arr l)) := by
  refine ⟨?_, ?_, ?_, ?_, ?_, ?_, ?_, ?_, ?_, ?_, ?_, ?_, ?_⟩ <;>
    intros <;>
    simp_all [resolveDirectives, spreadDirectives, spreadField, toHeaderParams,
      defaultConfig, Option.join]

/-- C9 witness: the precedence theorem applied to the two fixtures — the
per-call `maxAgeCDN` and `vary` win, the config `maxAgeBrowser` wins over
the default, the untouched `private` falls back to its default, and the
per-call `vary` list has replaced the config list. -/
theorem merge_precedence_per_field_witness :
    (resolveDirectives cfgFixture perFixture).maxAgeCDN = some 5 ∧
    (resolveDirectives cfgFixture perFixture).maxAgeBrowser = some 7 ∧
    (resolveDirectives cfgFixture perFixture).vary = some (VaryVal.arr ["A"]) ∧
    (resolveDirectives cfgFixture perFixture).priv = some false := by
  obtain ⟨h1, h2, h3, h4, h5, h6, h7, h8, h9, h10, h11, h12, h13⟩ :=
    merge_precedence_per_field cfgFixture perFixture
  exact ⟨h1 _ rfl, h5 _ rfl rfl, h13 _ _ rfl rfl, h12 rfl rfl⟩

/-- C10: `createPurgeContext(f)` runs `f` exactly once (the probe callback
appends exactly one marker to the effect trace), with a fresh empty tag
store bound as the ambient context (the probe observes `some emptyTagStore`),
restores the outer binding afterwards, and — although the TS signature
declares `void` — returns `f`'s value unchanged, which the Astro middleware
relies on to get its response back. -/
theorem createPurgeContext_invokes_once_returns_value :
    (∀ (outer : Ctx) (tr : Trace),
      createPurgeContext probeComp outer tr =
        (some emptyTagStore, outer, tr ++ ["probe-invoked"])) ∧
    (∀ (α : Type) (f : Comp α) (outer : Ctx) (tr : Trace),
      createPurgeContext f outer tr =
        ((f (some emptyTagStore) tr).1, outer, (f (some emptyTagStore) tr).2.2)) :=
  ⟨fun _ _ => rfl, fun _ _ _ _ => rfl⟩

/-!
Alignment of the embedding with the repository's own test suite
(`packages/core/test.ts`): each example reproduces one asserted expectation.
-/

-- test step "merges provider headers with common headers"
example : clientGetCacheHeaders
    ⟨⟨fun _ => Except.ok (), fun _ => [("X-Provider-Header", "provider-value")]⟩, {}⟩
    ["tag1"] {} =
    [("Cache-Control", "s-maxage=3153536000, must-revalidate, public"),
     ("Vary", "Accept-Encoding"),
     ("X-Provider-Header", "provider-value")] := by decide

-- test step "overrides defaults with config values"
example : lookupHeader (clientGetCacheHeaders
    ⟨⟨fun _ => Except.ok (), fun _ => []⟩,
     { maxAgeCDN := some (some 86400), maxAgeBrowser := some (some 3600),
       vary := some (some (VaryVal.arr ["Accept-Language", "User-Agent"])),
       priv := some (some false) }⟩
    ["tag1"] {}) "Cache-Control" =
    some "s-maxage=86400, max-age=3600, must-revalidate, public" := by decide

-- test step "overrides config with params values"
example : cacheControlValue (resolveDirectives
    { maxAgeCDN := some (some 86400), maxAgeBrowser := some (some 3600) }
    { maxAgeCDN := some (some 7200), maxAgeBrowser := some (some 1800),
      vary := some (some (VaryVal.str "Accept-Language")) }) =
    "s-maxage=7200, max-age=1800, must-revalidate, public" := by decide

-- test case "private cache"
example : cacheControlValue (resolveDirectives {}
    { priv := some (some true), maxAgeCDN := some (some 86400),
      maxAgeBrowser := some (some 3600) }) =
    "max-age=3600, must-revalidate, private" := by decide

-- test case "zero max ages"
example : cacheControlValue (resolveDirectives {}
    { maxAgeCDN := some (some 0), maxAgeBrowser := some (some 0) }) =
    "must-revalidate, public" := by decide

-- test case "browser cache only"
example : cacheControlValue (resolveDirectives {}
    { maxAgeCDN := some (some 0), maxAgeBrowser := some (some 3600) }) =
    "max-age=3600, must-revalidate, public" := by decide

-- test case "multiple vary headers as array"
example : lookupHeader (buildCommonHeaders (resolveDirectives {}
    { vary := some (some (VaryVal.arr
        ["Accept-Language", "User-Agent", "Accept-Encoding"])) })) "Vary" =
    some "Accept-Language, User-Agent, Accept-Encoding" := by decide

-- test step "no vary header when undefined": an explicitly `undefined` vary
-- in config and call suppresses the default through the object spread
example : lookupHeader (buildCommonHeaders (resolveDirectives
    { vary := some none } { vary := some none })) "Vary" = none := by decide

end Purge
